import Mathlib

/-!
Verification development for the bull-board-docker repository.

The repository is a configuration-and-glue layer: a Redis connection-options
builder (`src/redis.js`), an Express app with a `/healthcheck` route
(`src/index.js`), and configuration / queue-discovery / login modules.
This file embeds those parts shallowly: JavaScript objects built with
conditional spreads become association lists `List (String × JSVal)`,
JavaScript truthiness becomes explicit `Bool`-valued predicates on `Option`
types, and the asynchronous healthcheck handler becomes a total function on
an explicit ping-outcome type.

The modules `src/config.js`, `src/bull.js` and `src/login.js` are not part
of the source tree (only their unit tests are); the definitions for those
parts are modelled from the specification and marked as such in their doc
comments.
-/

namespace BullBoard

/-! ## JavaScript values and truthiness -/

/-- A sentinel entry `{host, port}` as produced by `parseDSNToSentinels` in
`src/redis.js`.  `port` is `Number.parseInt` applied to the text after the
first colon; `none` models the JavaScript `NaN` (no digits to parse) as well
as `parseInt(undefined)`. -/
structure Sentinel where
  host : String
  port : Option Int
deriving DecidableEq, Repr

/-- The JavaScript values that appear in the option records of this program. -/
inductive JSVal where
  | str : String → JSVal
  | num : Int → JSVal
  | bool : Bool → JSVal
  | null : JSVal
  | undef : JSVal
  | sentinelList : List Sentinel → JSVal
  | obj : List (String × JSVal) → JSVal

/-- JavaScript truthiness of a string-valued configuration entry:
`undefined` and the empty string are falsy. -/
def strTruthy : Option String → Bool
  | none => false
  | some s => !(s == "")

/-- JavaScript truthiness of a number-valued configuration entry:
`undefined` and `0` are falsy. -/
def intTruthy : Option Int → Bool
  | none => false
  | some n => !(n == 0)

/-- A string-or-undefined configuration value as a JavaScript value. -/
def optStr : Option String → JSVal
  | none => JSVal.undef
  | some s => JSVal.str s

/-- A number-or-undefined configuration value as a JavaScript value. -/
def optNum : Option Int → JSVal
  | none => JSVal.undef
  | some n => JSVal.num n

/-- The conditional object spread `...(cond && {...fields})`: the fields are
present exactly when `cond` is truthy. -/
def spreadIf (b : Bool) (l : List (String × JSVal)) : List (String × JSVal) :=
  if b then l else []

/-- Whether an option record has a key (top-level). -/
def hasKey : List (String × JSVal) → String → Bool
  | [], _ => false
  | (k1, _) :: t, k => k1 == k || hasKey t k

/-- First value bound to a key of an option record, if any. -/
def getKey : List (String × JSVal) → String → Option JSVal
  | [], _ => none
  | (k1, v) :: t, k => if k1 == k then some v else getKey t k

/-! ## `parseDSNToSentinels` (src/redis.js, lines 5-12) -/

/-- The separator class of the regex `/,|;/` used by `dsn.split`. -/
def isSepChar (c : Char) : Bool := c == ',' || c == ';'

/-- `String.prototype.split` at the character level: split at every
separator character, keeping empty segments (JavaScript semantics). -/
def splitChars (p : Char → Bool) : List Char → List (List Char)
  | [] => [[]]
  | c :: rest =>
    if p c then [] :: splitChars p rest
    else
      match splitChars p rest with
      | [] => [[c]]
      | h :: t => (c :: h) :: t

/-- JavaScript whitespace skipped by `Number.parseInt`. -/
def isJsWhitespace (c : Char) : Bool :=
  c == ' ' || c == '\t' || c == '\n' || c == '\r' || c == '\x0b' || c == '\x0c'

/-- Decimal value of a digit string. -/
def digitsToNat (cs : List Char) : Nat :=
  cs.foldl (fun a c => a * 10 + (c.toNat - 48)) 0

/-- Hexadecimal digit recognizer of `Number.parseInt` with a `0x` prefix. -/
def isHexDigitChar (c : Char) : Bool :=
  c.isDigit || (decide (97 ≤ c.toNat) && decide (c.toNat ≤ 102))
    || (decide (65 ≤ c.toNat) && decide (c.toNat ≤ 70))

/-- Value of a hexadecimal digit. -/
def hexDigitVal (c : Char) : Nat :=
  if c.isDigit then c.toNat - 48
  else if decide (97 ≤ c.toNat) && decide (c.toNat ≤ 102) then c.toNat - 87
  else c.toNat - 55

/-- Hexadecimal value of a hex-digit string. -/
def hexToNat (cs : List Char) : Nat :=
  cs.foldl (fun a c => a * 16 + hexDigitVal c) 0

/-- Whether the text starts with the `0x`/`0X` prefix that switches
`Number.parseInt` to base 16. -/
def matchesHexStart : List Char → Bool
  | c0 :: c1 :: _ => c0 == '0' && (c1 == 'x' || c1 == 'X')
  | _ => false

/-- The unsigned part of `Number.parseInt`: maximal prefix of digits
(hexadecimal after a `0x` prefix), `none` (NaN) when there is none. -/
def parseUnsigned (cs : List Char) : Option Nat :=
  if matchesHexStart cs then
    let ds := (cs.drop 2).takeWhile isHexDigitChar
    if ds.isEmpty then none else some (hexToNat ds)
  else
    let ds := cs.takeWhile Char.isDigit
    if ds.isEmpty then none else some (digitsToNat ds)

/-- `Number.parseInt` on a character list: skip leading whitespace, read an
optional sign, then the maximal digit prefix; `none` models NaN. -/
def jsParseInt (cs : List Char) : Option Int :=
  match cs.dropWhile isJsWhitespace with
  | [] => none
  | c :: rest =>
    if c == '-' then (parseUnsigned rest).map (fun n => -(n : Int))
    else if c == '+' then (parseUnsigned rest).map (fun n => (n : Int))
    else (parseUnsigned (c :: rest)).map (fun n => (n : Int))

/-- `Number.parseInt` applied to `host.split(':')[1]`, which is `undefined`
when the entry has no colon (and `parseInt(undefined)` is NaN). -/
def jsParseIntOpt : Option (List Char) → Option Int
  | none => none
  | some cs => jsParseInt cs

/-- `entry.split(':')[1]` at the character level: the segment strictly
between the first and second colon, `none` when there is no colon. -/
def colonSeg1 (cs : List Char) : Option (List Char) :=
  match cs.dropWhile (fun c => !(c == ':')) with
  | [] => none
  | _ :: t => some (t.takeWhile (fun c => !(c == ':')))

/-- One entry of the DSN mapped to a sentinel record, following
`src/redis.js` lines 8-11: `host` is `host.split(':')[0]` and `port` is
`Number.parseInt(host.split(':')[1])`. -/
def entryToSentinel (cs : List Char) : Sentinel :=
  { host := String.mk (cs.takeWhile (fun c => !(c == ':')))
    port := jsParseIntOpt (colonSeg1 cs) }

/-- `parseDSNToSentinels` from `src/redis.js` lines 5-12: split the DSN on
`,` or `;` and map every entry to a `{host, port}` record. -/
def parseDSNToSentinels (dsn : String) : List Sentinel :=
  (splitChars isSepChar dsn.toList).map entryToSentinel

/-! ## The Redis connection-options record (src/redis.js, lines 14-81) -/

/-- The configuration values consumed by `redisConfig` in `src/redis.js`,
at the types observed in the unit tests (string-valued environment entries
as `Option String`, numeric ones as `Option Int`, defaulted booleans and
numbers as plain values).  The defaults mirror the documented defaults of
the configuration loader and are only a convenience for building concrete
environments. -/
structure RedisEnv where
  SENTINEL_HOSTS : Option String := none
  SENTINEL_NAME : Option String := none
  SENTINEL_ROLE : String := "master"
  MAX_RETRIES_PER_REQUEST : Option Int := none
  SENTINEL_USERNAME : Option String := none
  SENTINEL_PASSWORD : Option String := none
  SENTINEL_COMMAND_TIMEOUT : Option Int := none
  SENTINEL_TLS_ENABLED : Bool := false
  SENTINEL_UPDATE : Bool := false
  SENTINEL_MAX_CONNECTIONS : Int := 10
  SENTINEL_FAILOVER_DETECTOR : Bool := false
  REDIS_PORT : Int := 6379
  REDIS_HOST : String := "localhost"
  REDIS_FAMILY : Int := 0
  REDIS_DB : String := "0"
  REDIS_USER : Option String := none
  REDIS_PASSWORD : Option String := none
  REDIS_USE_TLS : Option String := none
  REDIS_COMMAND_TIMEOUT : Option Int := none
  REDIS_SOCKET_TIMEOUT : Option Int := none
  REDIS_CONNECT_TIMEOUT : Option Int := none
  REDIS_KEEP_ALIVE : Int := 0
  REDIS_NO_DELAY : Bool := true
  REDIS_CONNECTION_NAME : Option String := none
  REDIS_AUTO_RESUBSCRIBE : Bool := true
  REDIS_AUTO_RESEND_UNFULFILLED : Bool := true
  REDIS_ENABLE_OFFLINE_QUEUE : Bool := true
  REDIS_ENABLE_READY_CHECK : Bool := true

/-- The `redis` options object of `redisConfig` in `src/redis.js` lines
14-81, with every conditional spread `...(cond && {...})` rendered by
`spreadIf` and the unconditional fields emitted in source order. -/
def redisOptions (c : RedisEnv) : List (String × JSVal) :=
  spreadIf (strTruthy c.SENTINEL_HOSTS)
    ([("sentinels", JSVal.sentinelList (parseDSNToSentinels (c.SENTINEL_HOSTS.getD ""))),
      ("name", optStr c.SENTINEL_NAME),
      ("role", JSVal.str c.SENTINEL_ROLE),
      ("maxRetriesPerRequest",
        if intTruthy c.MAX_RETRIES_PER_REQUEST then optNum c.MAX_RETRIES_PER_REQUEST
        else JSVal.null)] ++
     spreadIf (strTruthy c.SENTINEL_USERNAME)
       [("sentinelUsername", optStr c.SENTINEL_USERNAME)] ++
     spreadIf (strTruthy c.SENTINEL_PASSWORD)
       [("sentinelPassword", optStr c.SENTINEL_PASSWORD)] ++
     spreadIf (intTruthy c.SENTINEL_COMMAND_TIMEOUT)
       [("sentinelCommandTimeout", optNum c.SENTINEL_COMMAND_TIMEOUT)] ++
     [("enableTLSForSentinelMode", JSVal.bool c.SENTINEL_TLS_ENABLED),
      ("updateSentinels", JSVal.bool c.SENTINEL_UPDATE),
      ("sentinelMaxConnections", JSVal.num c.SENTINEL_MAX_CONNECTIONS),
      ("failoverDetector", JSVal.bool c.SENTINEL_FAILOVER_DETECTOR)]) ++
  spreadIf (!strTruthy c.SENTINEL_HOSTS)
    [("port", JSVal.num c.REDIS_PORT),
     ("host", JSVal.str c.REDIS_HOST),
     ("family", JSVal.num c.REDIS_FAMILY)] ++
  [("db", JSVal.str c.REDIS_DB)] ++
  spreadIf (strTruthy c.REDIS_USER) [("username", optStr c.REDIS_USER)] ++
  spreadIf (strTruthy c.REDIS_PASSWORD) [("password", optStr c.REDIS_PASSWORD)] ++
  [("tls", JSVal.bool (c.REDIS_USE_TLS == some "true"))] ++
  spreadIf (intTruthy c.REDIS_COMMAND_TIMEOUT)
    [("commandTimeout", optNum c.REDIS_COMMAND_TIMEOUT)] ++
  spreadIf (intTruthy c.REDIS_SOCKET_TIMEOUT)
    [("socketTimeout", optNum c.REDIS_SOCKET_TIMEOUT)] ++
  spreadIf (intTruthy c.REDIS_CONNECT_TIMEOUT)
    [("connectTimeout", optNum c.REDIS_CONNECT_TIMEOUT)] ++
  [("keepAlive", JSVal.num c.REDIS_KEEP_ALIVE),
   ("noDelay", JSVal.bool c.REDIS_NO_DELAY)] ++
  spreadIf (strTruthy c.REDIS_CONNECTION_NAME)
    [("connectionName", optStr c.REDIS_CONNECTION_NAME)] ++
  [("autoResubscribe", JSVal.bool c.REDIS_AUTO_RESUBSCRIBE),
   ("autoResendUnfulfilledCommands", JSVal.bool c.REDIS_AUTO_RESEND_UNFULFILLED),
   ("enableOfflineQueue", JSVal.bool c.REDIS_ENABLE_OFFLINE_QUEUE),
   ("enableReadyCheck", JSVal.bool c.REDIS_ENABLE_READY_CHECK)]

/-- The all-defaults environment: no optional configuration value set. -/
def envDefault : RedisEnv := {}

/-! ## The healthcheck handler (src/index.js, `app.use` at lines 153-179) -/

/-- Outcome of `client.ping()` as observed by the handler: the promise
either resolves to a string or rejects with an error whose message is
recorded. -/
inductive PingOutcome where
  | resolves : String → PingOutcome
  | rejects : String → PingOutcome
deriving DecidableEq, Repr

/-- The `info.redis` part of the healthcheck body.  `status` is `none` when
the `status` key is bound to `undefined`; `errorMsg` is `none` exactly when
the body carries no `error` key (the spread `...(redisError && {error})`
fires exactly when the catch branch ran, an `Error` object being truthy). -/
structure RedisHealth where
  status : Option String
  description : String
  errorMsg : Option String
deriving DecidableEq, Repr

/-- The healthcheck response: HTTP status code plus the JSON body fields. -/
structure HealthResponse where
  httpStatus : Nat
  status : String
  redis : RedisHealth
deriving DecidableEq, Repr

/-- The description string of the healthcheck body. -/
def pingDescription : String := "Based on the Redis PING/PONG system"

/-- The `/healthcheck` handler of `src/index.js`: `status` starts as
`"ok"`; a resolved ping equal to `"PONG"` sets `redis.status` to `"up"`,
any other resolved value sets it to `"down"` and `status` to `"error"`; a
rejected ping sets `status` to `"error"` and records the error, leaving
`redis.status` undefined.  The HTTP status is always 200. -/
def healthcheckHandler : PingOutcome → HealthResponse
  | .resolves v =>
    if v = "PONG" then
      { httpStatus := 200, status := "ok"
        redis := { status := some "up", description := pingDescription, errorMsg := none } }
    else
      { httpStatus := 200, status := "error"
        redis := { status := some "down", description := pingDescription, errorMsg := none } }
  | .rejects m =>
    { httpStatus := 200, status := "error"
      redis := { status := none, description := pingDescription, errorMsg := some m } }

/-! ## Configuration derivation (spec-modelled; src/config.js is absent) -/

/-- The environment inputs of the configuration derivations under study. -/
structure AppEnv where
  USER_LOGIN : Option String := none
  USER_PASSWORD : Option String := none
  PROXY_PATH : Option String := none

/-- The derived configuration values under study. -/
structure AppConfig where
  AUTH_ENABLED : Bool
  PROXY_PATH : String
  HOME_PAGE : String
  LOGIN_PAGE : String
deriving DecidableEq, Repr

/-- Removal of a single trailing slash (the JavaScript idiom
`replace` with the pattern of one slash at the end of the string). -/
def stripOneTrailingSlash (s : String) : String :=
  if s.toList.getLast? == some '/' then String.mk s.toList.dropLast else s

/-- Modelled from the spec: the configuration derivations of the missing
`src/config.js`.  "`AUTH_ENABLED` is true iff both login and password are
set"; "`LOGIN_PAGE`/`HOME_PAGE` are prefixed by `PROXY_PATH` when set, with
trailing slashes normalized away".  The unit tests pin the boundary: a
missing or empty `PROXY_PATH` normalizes to `""`, `HOME_PAGE` falls back to
`"/"` exactly when the normalized path is empty (JavaScript truthiness),
and `LOGIN_PAGE` is the normalized path followed by `"/login"`. -/
def deriveAppConfig (env : AppEnv) : AppConfig :=
  let pfx := stripOneTrailingSlash (env.PROXY_PATH.getD "")
  { AUTH_ENABLED := env.USER_LOGIN.isSome && env.USER_PASSWORD.isSome
    PROXY_PATH := pfx
    HOME_PAGE := if pfx = "" then "/" else pfx
    LOGIN_PAGE := pfx ++ "/login" }

/-! ## Queue discovery and per-queue options (spec-modelled; src/bull.js is absent) -/

/-- Modelled from the spec: queue-name extraction of the missing
`src/bull.js` ("enumerate Redis keys matching the queue key pattern,
extract unique queue names").  A key of the shape `pfx:name:suffix` yields
its middle segment. -/
def queueNameOfKey (key : String) : String :=
  match splitChars (fun c => c == ':') key.toList with
  | _ :: nm :: _ => String.mk nm
  | _ => key

/-- Unique queue names of a key listing, in first-occurrence order. -/
def uniqueNames (keys : List String) : List String :=
  keys.foldl
    (fun acc k => if acc.contains (queueNameOfKey k) then acc else acc ++ [queueNameOfKey k])
    []

/-- Result of one discovery run: the discovered queue names (one queue
client is constructed per name) and whether the zero-queue error was
logged.  Discovery being a total function models its non-throwing
completion. -/
structure DiscoveryResult where
  queues : List String
  loggedError : Bool
deriving DecidableEq, Repr

/-- Modelled from the spec: the discovery pass of the missing `src/bull.js`
("construct one queue client per name"; "if zero queues are discovered, log
an error and proceed with an empty dashboard (non-fatal)"). -/
def discoverQueues (keys : List String) : DiscoveryResult :=
  let names := uniqueNames keys
  { queues := names, loggedError := names.isEmpty }

/-- The two queue client libraries selectable by `BULL_VERSION`. -/
inductive BullVersion where
  | bullmq : BullVersion
  | bull : BullVersion
deriving DecidableEq, Repr

/-- Modelled from the spec: the per-queue client options of the missing
`src/bull.js`.  The connection is passed under `connection` (BullMQ) or
`redis` (Bull), and the queue prefix key is added only when the configured
`BULL_PREFIX` is truthy, a non-empty string (`undefined` and `null` are
both modelled as `none`). -/
def queueClientOptions (version : BullVersion) (pfx : Option String) :
    List (String × JSVal) :=
  [(match version with
    | .bullmq => "connection"
    | .bull => "redis", JSVal.obj [])] ++
  spreadIf (strTruthy pfx) [("prefix", optStr pfx)]

/-! ## Local login strategy (spec-modelled; src/login.js is absent) -/

/-- Modelled from the spec: the verify callback of the local strategy in
the missing `src/login.js` ("credentials matching configured login/password
yield a success callback with a fixed user identity; any mismatch yields a
not-authenticated outcome, never an error").  The result is the argument
pair passed to the `done` callback: the error slot, always `null`, and the
user slot, the fixed identity object on a match and `false` otherwise. -/
def localStrategyVerify (cfgLogin cfgPassword username password : String) :
    JSVal × JSVal :=
  if username = cfgLogin ∧ password = cfgPassword then
    (JSVal.null, JSVal.obj [("user", JSVal.str "bull-board")])
  else
    (JSVal.null, JSVal.bool false)

/-! ## DSN construction for the sentinel-parsing statement -/

/-- A `host:port` entry from its two components. -/
def mkEntry (hp : String × String) : String := hp.1 ++ ":" ++ hp.2

/-- Joining entries with a separator (the inverse of the split performed by
`parseDSNToSentinels`); used to state what a "DSN consisting of host:port
entries" is. -/
def joinWith (sep : String) : List String → String
  | [] => ""
  | [e] => e
  | e :: es => e ++ sep ++ joinWith sep es

/-- Character-level joining, mirroring `joinWith`. -/
def charJoin (c : Char) : List (List Char) → List Char
  | [] => []
  | [e] => e
  | e :: es => e ++ c :: charJoin c es

/-- A well-formed host component: no colon and no DSN separator. -/
def goodHost (h : String) : Bool :=
  h.toList.all (fun x => !(x == ':') && !isSepChar x)

/-- A well-formed port component: a non-empty string of decimal digits. -/
def goodPort (p : String) : Bool :=
  !p.toList.isEmpty && p.toList.all Char.isDigit

/-! ## Key-lookup lemmas -/

lemma hasKey_append : ∀ (l1 l2 : List (String × JSVal)) (k : String),
    hasKey (l1 ++ l2) k = (hasKey l1 k || hasKey l2 k)
  | [], l2, k => by simp [hasKey]
  | (k1, v) :: t, l2, k => by
    simp [hasKey, hasKey_append t l2 k, Bool.or_assoc]

lemma hasKey_spreadIf (b : Bool) (l : List (String × JSVal)) (k : String) :
    hasKey (spreadIf b l) k = (b && hasKey l k) := by
  cases b <;> simp [spreadIf, hasKey]

lemma getKey_eq_none_of_not_has : ∀ (l : List (String × JSVal)) (k : String),
    hasKey l k = false → getKey l k = none
  | [], _, _ => rfl
  | (k1, v) :: t, k, h => by
    simp only [hasKey, Bool.or_eq_false_iff] at h
    rw [getKey, if_neg (by simp [h.1])]
    exact getKey_eq_none_of_not_has t k h.2

/-! ## Splitting and parsing lemmas for the sentinel DSN -/

lemma splitChars_nosep (p : Char → Bool) : ∀ (cs : List Char),
    (∀ c ∈ cs, p c = false) → splitChars p cs = [cs]
  | [], _ => rfl
  | c :: rest, h => by
    have hc : p c = false := h c (List.mem_cons_self c rest)
    have ih := splitChars_nosep p rest (fun x hx => h x (List.mem_cons_of_mem c hx))
    simp [splitChars, hc, ih]

lemma splitChars_append_sep (p : Char → Bool) : ∀ (xs : List Char) (s : Char) (ys : List Char),
    (∀ c ∈ xs, p c = false) → p s = true →
    splitChars p (xs ++ s :: ys) = xs :: splitChars p ys
  | [], s, ys, _, hs => by simp [splitChars, hs]
  | x :: xs', s, ys, h, hs => by
    have hx : p x = false := h x (List.mem_cons_self _ _)
    have ih := splitChars_append_sep p xs' s ys
      (fun c hc => h c (List.mem_cons_of_mem _ hc)) hs
    simp [splitChars, hx, ih]

lemma splitChars_charJoin (sc : Char) (hsc : isSepChar sc = true) :
    ∀ (ents : List (List Char)), ents ≠ [] →
      (∀ e ∈ ents, ∀ x ∈ e, isSepChar x = false) →
      splitChars isSepChar (charJoin sc ents) = ents
  | [], hne, _ => absurd rfl hne
  | [e], _, hall => by
    have he : ∀ x ∈ e, isSepChar x = false := hall e (by simp)
    simp [charJoin, splitChars_nosep isSepChar e he]
  | e :: e2 :: es, _, hall => by
    have he : ∀ x ∈ e, isSepChar x = false := hall e (by simp)
    have ih := splitChars_charJoin sc hsc (e2 :: es) (by simp)
      (fun e' he' x hx => hall e' (List.mem_cons_of_mem _ he') x hx)
    rw [show charJoin sc (e :: e2 :: es) = e ++ sc :: charJoin sc (e2 :: es) from rfl]
    rw [splitChars_append_sep isSepChar e sc _ he hsc, ih]

lemma joinWith_data (sep : String) (sc : Char) (hsep : sep.data = [sc]) :
    ∀ (l : List String), (joinWith sep l).data = charJoin sc (l.map String.data)
  | [] => rfl
  | [e] => rfl
  | e :: e2 :: es => by
    have ih := joinWith_data sep sc hsep (e2 :: es)
    show (e ++ sep ++ joinWith sep (e2 :: es)).data = _
    rw [String.data_append, String.data_append, hsep, ih]
    simp [charJoin]

lemma beq_false_of_isDigit (c d : Char) (hc : c.isDigit = true) (hd : d.isDigit = false) :
    (c == d) = false := by
  cases h : c == d with
  | false => rfl
  | true =>
    have hcd : c = d := by simpa using h
    subst hcd
    rw [hc] at hd
    exact Bool.noConfusion hd

lemma isSep_false_of_isDigit (c : Char) (hc : c.isDigit = true) : isSepChar c = false := by
  simp [isSepChar, beq_false_of_isDigit c ',' hc (by decide),
    beq_false_of_isDigit c ';' hc (by decide)]

lemma notColon_of_isDigit (c : Char) (hc : c.isDigit = true) : (c == ':') = false :=
  beq_false_of_isDigit c ':' hc (by decide)

lemma notWs_of_isDigit (c : Char) (hc : c.isDigit = true) : isJsWhitespace c = false := by
  simp [isJsWhitespace, beq_false_of_isDigit c ' ' hc (by decide),
    beq_false_of_isDigit c '\t' hc (by decide),
    beq_false_of_isDigit c '\n' hc (by decide),
    beq_false_of_isDigit c '\r' hc (by decide),
    beq_false_of_isDigit c '\x0b' hc (by decide),
    beq_false_of_isDigit c '\x0c' hc (by decide)]

lemma parseUnsigned_digits (p : List Char) (hp1 : p ≠ [])
    (hp2 : ∀ c ∈ p, c.isDigit = true) :
    parseUnsigned p = some (digitsToNat p) := by
  have hhex : matchesHexStart p = false := by
    match p, hp1 with
    | [c], _ => rfl
    | c0 :: c1 :: rest, _ =>
      have h1 : c1.isDigit = true := hp2 c1 (by simp)
      simp [matchesHexStart, beq_false_of_isDigit c1 'x' h1 (by decide),
        beq_false_of_isDigit c1 'X' h1 (by decide)]
  have htake : p.takeWhile Char.isDigit = p :=
    List.takeWhile_eq_self_iff.mpr (fun x hx => hp2 x hx)
  rw [parseUnsigned, if_neg (by simp [hhex]), htake]
  rw [if_neg (by simp [List.isEmpty_iff, hp1])]

lemma jsParseInt_digits (p : List Char) (hp1 : p ≠ [])
    (hp2 : ∀ c ∈ p, c.isDigit = true) :
    jsParseInt p = some ((digitsToNat p : Nat) : Int) := by
  match p, hp1 with
  | c :: rest, _ =>
    have hc : c.isDigit = true := hp2 c (by simp)
    have hdw : (c :: rest).dropWhile isJsWhitespace = c :: rest :=
      List.dropWhile_cons_of_neg (by simp [notWs_of_isDigit c hc])
    rw [jsParseInt, hdw]
    simp [beq_false_of_isDigit c '-' hc (by decide),
      beq_false_of_isDigit c '+' hc (by decide),
      parseUnsigned_digits (c :: rest) (by simp) hp2]

lemma entryToSentinel_hostport (h p : List Char)
    (hh : ∀ c ∈ h, (c == ':') = false)
    (hp1 : p ≠ []) (hp2 : ∀ c ∈ p, c.isDigit = true) :
    entryToSentinel (h ++ ':' :: p) =
      { host := String.mk h, port := some ((digitsToNat p : Nat) : Int) } := by
  have hhT : ∀ c ∈ h, (fun c => !(c == ':')) c = true := by
    intro c hc
    simp [hh c hc]
  have htake : (h ++ ':' :: p).takeWhile (fun c => !(c == ':')) = h := by
    rw [List.takeWhile_append_of_pos (by intro a ha; simp [hh a ha])]
    rw [List.takeWhile_cons_of_neg (by simp)]
    simp
  have hdrop : (h ++ ':' :: p).dropWhile (fun c => !(c == ':')) = ':' :: p := by
    rw [List.dropWhile_append_of_pos (by intro a ha; simp [hh a ha])]
    exact List.dropWhile_cons_of_neg (by simp)
  have hseg : colonSeg1 (h ++ ':' :: p) = some p := by
    rw [colonSeg1, hdrop]
    have : p.takeWhile (fun c => !(c == ':')) = p :=
      List.takeWhile_eq_self_iff.mpr
        (fun x hx => by simp [notColon_of_isDigit x (hp2 x hx)])
    simp [this]
  rw [entryToSentinel, htake, hseg]
  rw [show jsParseIntOpt (some p) = jsParseInt p from rfl]
  rw [jsParseInt_digits p hp1 hp2]

/-! ## Claim theorems -/

/-- C1: the healthcheck handler answers HTTP 200 in both listed cases; a
ping resolving to `"PONG"` yields `status = "ok"` with `info.redis.status =
"up"` and no `error` key, and a rejected ping yields `status = "error"`
with `info.redis.status` undefined and `info.redis.error` equal to the
rejection's message. -/
theorem healthcheck_ping_contract :
    healthcheckHandler (PingOutcome.resolves "PONG") =
      { httpStatus := 200, status := "ok"
        redis := { status := some "up", description := pingDescription, errorMsg := none } } ∧
    ∀ m : String,
      healthcheckHandler (PingOutcome.rejects m) =
        { httpStatus := 200, status := "error"
          redis := { status := none, description := pingDescription, errorMsg := some m } } :=
  ⟨by decide, fun _ => rfl⟩

/-- C10: a ping that resolves to anything other than `"PONG"` yields a
third response shape: `status = "error"`, `info.redis.status = "down"`, no
`error` key, still HTTP 200. -/
theorem healthcheck_non_pong_down (v : String) (h : v ≠ "PONG") :
    healthcheckHandler (PingOutcome.resolves v) =
      { httpStatus := 200, status := "error"
        redis := { status := some "down", description := pingDescription, errorMsg := none } } := by
  simp [healthcheckHandler, h]

/-- C10 witness: the non-`"PONG"` case at the concrete value `"PING"`. -/
theorem healthcheck_non_pong_down_witness :
    healthcheckHandler (PingOutcome.resolves "PING") =
      { httpStatus := 200, status := "error"
        redis := { status := some "down", description := pingDescription, errorMsg := none } } :=
  healthcheck_non_pong_down "PING" (by decide)

/-- C2 counterexample: with every optional configuration value absent, the
options record still carries a `tls` key (bound to `false`), so "a key of
the record if and only if its source configuration value is present" fails
for the TLS field at the all-defaults configuration. -/
theorem redisOptions_tls_counterexample :
    ¬(hasKey (redisOptions envDefault) "tls" = true ↔
        envDefault.REDIS_USE_TLS ≠ none) := by decide

/-- C2 amended: credentials, timeouts, sentinel credentials and the
connection name are keys of the options record exactly when their source
configuration value is truthy (present and non-empty, or non-zero); the
`tls` key, by contrast, is always present (bound to the boolean
`REDIS_USE_TLS === 'true'`), and in sentinel mode `maxRetriesPerRequest` is
always present, bound to `null` when its source value is absent or zero. -/
theorem redisOptions_optional_fields (c : RedisEnv) :
    hasKey (redisOptions c) "username" = strTruthy c.REDIS_USER ∧
    hasKey (redisOptions c) "password" = strTruthy c.REDIS_PASSWORD ∧
    hasKey (redisOptions c) "commandTimeout" = intTruthy c.REDIS_COMMAND_TIMEOUT ∧
    hasKey (redisOptions c) "socketTimeout" = intTruthy c.REDIS_SOCKET_TIMEOUT ∧
    hasKey (redisOptions c) "connectTimeout" = intTruthy c.REDIS_CONNECT_TIMEOUT ∧
    hasKey (redisOptions c) "connectionName" = strTruthy c.REDIS_CONNECTION_NAME ∧
    hasKey (redisOptions c) "sentinelUsername" =
      (strTruthy c.SENTINEL_HOSTS && strTruthy c.SENTINEL_USERNAME) ∧
    hasKey (redisOptions c) "sentinelPassword" =
      (strTruthy c.SENTINEL_HOSTS && strTruthy c.SENTINEL_PASSWORD) ∧
    hasKey (redisOptions c) "sentinelCommandTimeout" =
      (strTruthy c.SENTINEL_HOSTS && intTruthy c.SENTINEL_COMMAND_TIMEOUT) ∧
    hasKey (redisOptions c) "tls" = true ∧
    hasKey (redisOptions c) "maxRetriesPerRequest" = strTruthy c.SENTINEL_HOSTS := by
  refine ⟨?_, ?_, ?_, ?_, ?_, ?_, ?_, ?_, ?_, ?_, ?_⟩ <;>
    simp [redisOptions, hasKey_append, hasKey_spreadIf, hasKey]

/-- C9: the options builder branches once on the truthiness of
`SENTINEL_HOSTS`: the sentinel-topology keys `sentinels`, `name`, `role`
are present exactly when it is truthy, the direct keys `host`, `port`,
`family` exactly when it is not, and the `sentinels` value is the parse of
the comma/semicolon-delimited host list. -/
theorem redisOptions_topology_branch (c : RedisEnv) :
    hasKey (redisOptions c) "sentinels" = strTruthy c.SENTINEL_HOSTS ∧
    hasKey (redisOptions c) "name" = strTruthy c.SENTINEL_HOSTS ∧
    hasKey (redisOptions c) "role" = strTruthy c.SENTINEL_HOSTS ∧
    hasKey (redisOptions c) "host" = !strTruthy c.SENTINEL_HOSTS ∧
    hasKey (redisOptions c) "port" = !strTruthy c.SENTINEL_HOSTS ∧
    hasKey (redisOptions c) "family" = !strTruthy c.SENTINEL_HOSTS ∧
    getKey (redisOptions c) "sentinels" =
      (if strTruthy c.SENTINEL_HOSTS then
        some (JSVal.sentinelList (parseDSNToSentinels (c.SENTINEL_HOSTS.getD "")))
      else none) := by
  refine ⟨?_, ?_, ?_, ?_, ?_, ?_, ?_⟩
  · simp [redisOptions, hasKey_append, hasKey_spreadIf, hasKey]
  · simp [redisOptions, hasKey_append, hasKey_spreadIf, hasKey]
  · simp [redisOptions, hasKey_append, hasKey_spreadIf, hasKey]
  · simp [redisOptions, hasKey_append, hasKey_spreadIf, hasKey]
  · simp [redisOptions, hasKey_append, hasKey_spreadIf, hasKey]
  · simp [redisOptions, hasKey_append, hasKey_spreadIf, hasKey]
  · cases h : strTruthy c.SENTINEL_HOSTS
    · rw [getKey_eq_none_of_not_has]
      · simp
      · simp [redisOptions, hasKey_append, hasKey_spreadIf, hasKey, h]
    · simp [redisOptions, spreadIf, h, getKey]

/-- C4 (spec-modelled): `AUTH_ENABLED` is true exactly when both
`USER_LOGIN` and `USER_PASSWORD` are set. -/
theorem auth_enabled_iff_credentials (env : AppEnv) :
    (deriveAppConfig env).AUTH_ENABLED = true ↔
      env.USER_LOGIN ≠ none ∧ env.USER_PASSWORD ≠ none := by
  simp [deriveAppConfig, Option.isSome_iff_ne_none]

/-- C4 witness: both credentials set at concrete values. -/
theorem auth_enabled_iff_credentials_witness :
    (deriveAppConfig { USER_LOGIN := some "admin", USER_PASSWORD := some "pw" }).AUTH_ENABLED
      = true :=
  (auth_enabled_iff_credentials _).mpr ⟨by decide, by decide⟩

/-- C5 counterexample: at `PROXY_PATH = "/"` (a set value), the claim's
first case demands `HOME_PAGE` equal to the prefix with the trailing slash
removed, i.e. the empty string, but the derivation yields `"/"`. -/
theorem proxy_root_counterexample :
    ¬((deriveAppConfig { PROXY_PATH := some "/" }).HOME_PAGE =
        stripOneTrailingSlash "/") := by decide

/-- C5 amended (spec-modelled): when `PROXY_PATH` normalizes (one trailing
slash removed) to a non-empty prefix, `HOME_PAGE` is that prefix and
`LOGIN_PAGE` is the prefix followed by `/login`; when `PROXY_PATH` is
unset, empty, or normalizes to the empty string (the value `"/"`),
`HOME_PAGE` is `/` and `LOGIN_PAGE` is `/login`. -/
theorem proxy_path_pages (env : AppEnv) :
    (stripOneTrailingSlash (env.PROXY_PATH.getD "") ≠ "" →
      (deriveAppConfig env).HOME_PAGE = stripOneTrailingSlash (env.PROXY_PATH.getD "") ∧
      (deriveAppConfig env).LOGIN_PAGE =
        stripOneTrailingSlash (env.PROXY_PATH.getD "") ++ "/login") ∧
    (stripOneTrailingSlash (env.PROXY_PATH.getD "") = "" →
      (deriveAppConfig env).HOME_PAGE = "/" ∧
      (deriveAppConfig env).LOGIN_PAGE = "/login") := by
  constructor <;> intro h <;>
    simp [deriveAppConfig, h]

/-- C5 witness: the two amended cases at `"/custom-path/"` and at an unset
`PROXY_PATH`. -/
theorem proxy_path_pages_witness :
    ((deriveAppConfig { PROXY_PATH := some "/custom-path/" }).HOME_PAGE =
        stripOneTrailingSlash "/custom-path/" ∧
      (deriveAppConfig { PROXY_PATH := some "/custom-path/" }).LOGIN_PAGE =
        stripOneTrailingSlash "/custom-path/" ++ "/login") ∧
    (deriveAppConfig {}).HOME_PAGE = "/" ∧
    (deriveAppConfig {}).LOGIN_PAGE = "/login" := by
  refine ⟨(proxy_path_pages _).1 (by decide), (proxy_path_pages {}).2 (by decide)⟩

/-- C6 (spec-modelled): for either client version, the per-queue options
carry a `prefix` key exactly when the configured queue prefix is a
non-empty string (`undefined` and `null` are modelled as `none`). -/
theorem queue_options_prefix_key (v : BullVersion) (qp : Option String) :
    hasKey (queueClientOptions v qp) "prefix" = true ↔
      ∃ s, qp = some s ∧ s ≠ "" := by
  cases v <;> cases qp <;>
    simp [queueClientOptions, hasKey_append, hasKey_spreadIf, hasKey, strTruthy]

/-- C6 witness: the key is present at the concrete prefix `"test-prefix"`
and follows from the theorem. -/
theorem queue_options_prefix_key_witness :
    hasKey (queueClientOptions BullVersion.bullmq (some "test-prefix")) "prefix" = true :=
  (queue_options_prefix_key BullVersion.bullmq (some "test-prefix")).mpr
    ⟨"test-prefix", rfl, by decide⟩

/-- C7 (spec-modelled): discovery of the key set
`["bull:queue1:jobs", "bull:queue2:jobs"]` yields exactly the two distinct
queues `queue1` and `queue2` with no error; discovery of the empty key set
completes (it is a total function) with an empty queue set and the logged
error. -/
theorem discovery_two_queues_and_empty :
    discoverQueues ["bull:queue1:jobs", "bull:queue2:jobs"] =
      { queues := ["queue1", "queue2"], loggedError := false } ∧
    discoverQueues [] = { queues := [], loggedError := true } := by
  exact ⟨by decide, by decide⟩

/-- C8 (spec-modelled): the local strategy's verify callback always passes
`null` as its error argument; it passes the fixed identity
`{user: 'bull-board'}` exactly on a credential match and `false` on any
mismatch. -/
theorem local_strategy_verify_contract
    (cfgLogin cfgPassword username password : String) :
    (localStrategyVerify cfgLogin cfgPassword username password).1 = JSVal.null ∧
    (username = cfgLogin ∧ password = cfgPassword →
      (localStrategyVerify cfgLogin cfgPassword username password).2 =
        JSVal.obj [("user", JSVal.str "bull-board")]) ∧
    (¬(username = cfgLogin ∧ password = cfgPassword) →
      (localStrategyVerify cfgLogin cfgPassword username password).2 =
        JSVal.bool false) := by
  by_cases h : username = cfgLogin ∧ password = cfgPassword <;>
    simp [localStrategyVerify, h]

/-- C3: for every sentinel DSN string consisting of `host:port` entries
(colon- and separator-free hosts, non-empty digit ports) separated by `,`
or `;`, `parseDSNToSentinels` returns, in input order, one `{host, port}`
record per entry, where `host` is the text before the first colon of the
entry and `port` is the integer parsed from the text after it; every
returned port is an integer (`some`, never the NaN case `none`). -/
theorem parseDSN_sentinels_correct (sep : String) (hsep : sep = "," ∨ sep = ";")
    (pairs : List (String × String)) (hne : pairs ≠ [])
    (hhost : ∀ hp ∈ pairs, goodHost hp.1 = true)
    (hport : ∀ hp ∈ pairs, goodPort hp.2 = true) :
    parseDSNToSentinels (joinWith sep (pairs.map mkEntry)) =
      pairs.map (fun hp =>
        { host := hp.1, port := some ((digitsToNat hp.2.toList : Nat) : Int) }) ∧
    ∀ s ∈ parseDSNToSentinels (joinWith sep (pairs.map mkEntry)),
      s.port.isSome = true := by
  obtain ⟨sc, hsc1, hsc2⟩ : ∃ sc, sep.data = [sc] ∧ isSepChar sc = true := by
    rcases hsep with h | h <;> subst h
    · exact ⟨',', rfl, rfl⟩
    · exact ⟨';', rfl, rfl⟩
  have hgoodH : ∀ hp ∈ pairs, ∀ c ∈ hp.1.data,
      (c == ':') = false ∧ isSepChar c = false := by
    intro hp hhp c hc
    have hall := hhost hp hhp
    rw [goodHost, List.all_eq_true] at hall
    have h2 := hall c hc
    rw [Bool.and_eq_true, Bool.not_eq_true', Bool.not_eq_true'] at h2
    exact h2
  have hgoodP : ∀ hp ∈ pairs, hp.2.data ≠ [] ∧ ∀ c ∈ hp.2.data, c.isDigit = true := by
    intro hp hhp
    have hall := hport hp hhp
    rw [goodPort, Bool.and_eq_true] at hall
    constructor
    · intro hnil
      rw [show hp.2.toList = hp.2.data from rfl, hnil] at hall
      exact Bool.noConfusion hall.1
    · intro c hc
      have := hall.2
      rw [List.all_eq_true] at this
      exact this c hc
  have hentry : pairs.map (String.data ∘ mkEntry) =
      pairs.map (fun hp => hp.1.data ++ ':' :: hp.2.data) := by
    apply List.map_congr_left
    intro hp _
    show (hp.1 ++ ":" ++ hp.2).data = _
    rw [String.data_append, String.data_append]
    simp
  have key : splitChars isSepChar (joinWith sep (pairs.map mkEntry)).data =
      pairs.map (fun hp => hp.1.data ++ ':' :: hp.2.data) := by
    rw [joinWith_data sep sc hsc1, List.map_map, hentry]
    apply splitChars_charJoin sc hsc2
    · simpa using hne
    · intro e he x hx
      rw [List.mem_map] at he
      obtain ⟨hp, hhp, rfl⟩ := he
      rcases List.mem_append.mp hx with hx1 | hx2
      · exact (hgoodH hp hhp x hx1).2
      · rcases List.mem_cons.mp hx2 with hx3 | hx4
        · rw [hx3]; rfl
        · exact isSep_false_of_isDigit x ((hgoodP hp hhp).2 x hx4)
  have main : parseDSNToSentinels (joinWith sep (pairs.map mkEntry)) =
      pairs.map (fun hp =>
        { host := hp.1, port := some ((digitsToNat hp.2.toList : Nat) : Int) }) := by
    rw [parseDSNToSentinels]
    rw [show (joinWith sep (pairs.map mkEntry)).toList =
      (joinWith sep (pairs.map mkEntry)).data from rfl]
    rw [key, List.map_map]
    apply List.map_congr_left
    intro hp hhp
    rw [Function.comp_apply,
      entryToSentinel_hostport hp.1.data hp.2.data
        (fun c hc => (hgoodH hp hhp c hc).1)
        (hgoodP hp hhp).1 (hgoodP hp hhp).2]
    rfl
  refine ⟨main, ?_⟩
  intro s hs
  rw [main, List.mem_map] at hs
  obtain ⟨hp, _, rfl⟩ := hs
  rfl

/-- C3 witness: the theorem applied to the host-port pairs of the unit
tests, joined with the comma separator. -/
theorem parseDSN_sentinels_correct_witness :
    parseDSNToSentinels
        (joinWith "," ([("host1", "26379"), ("host2", "26379")].map mkEntry)) =
      [("host1", "26379"), ("host2", "26379")].map (fun hp =>
        { host := hp.1, port := some ((digitsToNat hp.2.toList : Nat) : Int) }) :=
  (parseDSN_sentinels_correct "," (Or.inl rfl)
    [("host1", "26379"), ("host2", "26379")] (by decide) (by decide) (by decide)).1

/-- C8 witness: match and mismatch at concrete credentials. -/
theorem local_strategy_verify_contract_witness :
    (localStrategyVerify "admin" "password" "admin" "password").2 =
      JSVal.obj [("user", JSVal.str "bull-board")] ∧
    (localStrategyVerify "admin" "password" "admin" "wrong").2 = JSVal.bool false := by
  constructor
  · exact (local_strategy_verify_contract "admin" "password" "admin" "password").2.1
      ⟨rfl, rfl⟩
  · exact (local_strategy_verify_contract "admin" "password" "admin" "wrong").2.2
      (by decide)

end BullBoard
